import Mathlib

/-!
Shallow embedding of the core logic of the Personal Library Manager
(src/app.py): the in-memory book store (a Python list of dicts held in
`st.session_state.library`), its operations `add_book`, `edit_book`,
`remove_book`, `search_books`, `get_statistics`, the form-submission
guards around add/edit, and the JSON persistence (save plus the
load-with-migration blocks).

The store is passed explicitly: a Python function mutating
`st.session_state.library` becomes a Lean function from the old store to
the new store, paired with the booleans the source returns.  `save_library`
writes the whole store to disk; a mutation's "persisted" flag in the model
records whether the source called `save_library` on that path.
-/

namespace PLM

/-- One book, mirroring the dictionary built in `add_book`
(src/app.py lines 176-186).  `cover_image` holds the raw uploaded bytes
(`cover_image.read()`) or `None`; bytes are modelled as a list of naturals. -/
structure Book where
  title : String
  author : String
  publication_year : Int
  genres : List String
  read_status : Bool
  date_added : String
  cover_image : Option (List Nat)
  rating : Int
  review : String
deriving Repr, DecidableEq

/-- Python's `sub in hay` on lists (contiguous-infix test). -/
def pyInfix (sub : List Char) : List Char → Bool
  | [] => sub.isEmpty
  | c :: cs => sub.isPrefixOf (c :: cs) || pyInfix sub cs

/-- Python's `sub in hay` on strings (substring containment). -/
def pyIn (sub hay : String) : Bool :=
  pyInfix sub.data hay.data

/-- Python's `str.lower()`: lowercase every character (the titles, authors,
genre tags and queries of this app are ASCII, where `Char.toLower` agrees
with Python). -/
def strLower (s : String) : String :=
  ⟨s.data.map Char.toLower⟩

/-- Python list indexing `xs[i]` for an `int` index: a negative index counts
from the end; the access succeeds exactly when the adjusted index is in
range, otherwise an `IndexError` is raised. -/
def pyIndex (n : Nat) (i : Int) : Option (Fin n) :=
  let j : Int := if i < 0 then i + n else i
  if h : 0 ≤ j ∧ j < n then some ⟨j.toNat, by omega⟩ else none

/-- `add_book` (src/app.py lines 174-191): builds the book dict with
`date_added = datetime.now().strftime(...)` (passed here as `now`), appends
it to the library, calls `save_library()` and returns `True`.  The returned
pair is (new store, returned boolean); the function performs no validation
and never fails. -/
def add_book (lib : List Book) (title author : String) (publication_year : Int)
    (genres : List String) (read_status : Bool) (cover_image : Option (List Nat))
    (rating : Int) (review : String) (now : String) : List Book × Bool :=
  let book : Book :=
    { title := title
      author := author
      publication_year := publication_year
      genres := genres
      read_status := read_status
      date_added := now
      cover_image := cover_image
      rating := rating
      review := review }
  (lib ++ [book], true)

/-- `edit_book` (src/app.py lines 194-207): reads the existing book at
`index` (Python indexing), keeps the old cover when no new one is supplied,
and updates every field of the dict except `date_added` in place.  `none`
models the uncaught `IndexError`: both `library[index]["cover_image"]`
(line 195) and `library[index].update(...)` (line 196) index the list
before any mutation, so on an invalid index the store is untouched. -/
def edit_book (lib : List Book) (index : Int) (title author : String)
    (publication_year : Int) (genres : List String) (read_status : Bool)
    (cover_image : Option (List Nat)) (rating : Int) (review : String) :
    Option (List Book) :=
  match pyIndex lib.length index with
  | none => none
  | some j =>
    let old := lib.get j
    let new_cover := match cover_image with
      | some c => some c
      | none => old.cover_image
    some (lib.set j.val
      { old with
        title := title
        author := author
        publication_year := publication_year
        genres := genres
        read_status := read_status
        cover_image := new_cover
        rating := rating
        review := review })

/-- The visible state transition of `edit_book`: on success the updated
store (persisted via `save_library`, returning `True`); on `IndexError` the
exception propagates and the store is left as it was, with no persistence. -/
def edit_book_state (lib : List Book) (index : Int) (title author : String)
    (publication_year : Int) (genres : List String) (read_status : Bool)
    (cover_image : Option (List Nat)) (rating : Int) (review : String) :
    List Book × Bool :=
  match edit_book lib index title author publication_year genres read_status
      cover_image rating review with
  | some lib2 => (lib2, true)
  | none => (lib, false)

/-- `remove_book` (src/app.py lines 210-217): rebuilds the library keeping
every book whose lowercased title differs from the lowercased argument;
calls `save_library()` and returns `True` only when the length shrank,
otherwise returns `False` without persisting. -/
def remove_book (lib : List Book) (title : String) : List Book × Bool :=
  if (lib.filter (fun book => strLower book.title != strLower title)).length
      < lib.length then
    (lib.filter (fun book => strLower book.title != strLower title), true)
  else
    (lib, false)

/-- The loop body of `search_books` (src/app.py lines 224-230), already
specialised to a lowercased query: the `if`/`elif` chain appends a book to
the results when the selected field matches; an unrecognised `search_by`
matches nothing. -/
def searchLoop (q search_by : String) : List Book → List Book
  | [] => []
  | book :: rest =>
    if search_by == "title" && pyIn q (strLower book.title) then
      book :: searchLoop q search_by rest
    else if search_by == "author" && pyIn q (strLower book.author) then
      book :: searchLoop q search_by rest
    else if search_by == "genre" && book.genres.any (fun genre => pyIn q (strLower genre)) then
      book :: searchLoop q search_by rest
    else
      searchLoop q search_by rest

/-- `search_books` (src/app.py lines 220-232): lowercases the query once
and scans the library in order. -/
def search_books (lib : List Book) (query search_by : String) : List Book :=
  searchLoop (strLower query) search_by lib

/-- `get_statistics` (src/app.py lines 235-248): total count, count of read
books (`sum(1 for book ... if book["read_status"])`), and the percentage
`(read_books / total_books) * 100`, or `0` for an empty library.  The
division is modelled exactly over ℚ. -/
def get_statistics (lib : List Book) : Nat × Nat × ℚ :=
  let total_books := lib.length
  let read_books : Nat := (lib.map (fun book => if book.read_status then 1 else 0)).sum
  let percentage_read : ℚ :=
    if total_books > 0 then ((read_books : ℚ) / (total_books : ℚ)) * 100 else 0
  (total_books, read_books, percentage_read)

/-- The Add Book form-submission handler (src/app.py lines 317-322): Python
truthiness `if title and author and genres` guards the call to `add_book`;
with an empty title, empty author or empty genre list it shows the
validation error "Title, Author, and at least one Genre are required
fields." and never touches the store. -/
def submitAddBook (lib : List Book) (title author : String) (publication_year : Int)
    (genres : List String) (read_status : Bool) (cover_image : Option (List Nat))
    (rating : Int) (review : String) (now : String) : List Book × Bool :=
  if title != "" && author != "" && !genres.isEmpty then
    add_book lib title author publication_year genres read_status cover_image
      rating review now
  else
    (lib, false)

/-- The Edit Books form-submission handler (src/app.py lines 562-567): the
same truthiness guard around `edit_book`. -/
def submitEditBook (lib : List Book) (index : Int) (title author : String)
    (publication_year : Int) (genres : List String) (read_status : Bool)
    (cover_image : Option (List Nat)) (rating : Int) (review : String) :
    List Book × Bool :=
  if title != "" && author != "" && !genres.isEmpty then
    edit_book_state lib index title author publication_year genres read_status
      cover_image rating review
  else
    (lib, false)

/-- JSON values, as produced by Python's `json.load`: the loaded root and
the items inside it can be any of these shapes, and the load-time migration
must cope with (or blow up on) all of them.  Objects keep their key order
(Python dicts preserve insertion order). -/
inductive JVal where
  | jnull : JVal
  | jbool : Bool → JVal
  | jnum : Int → JVal
  | jstr : String → JVal
  | jarr : List JVal → JVal
  | jobj : List (String × JVal) → JVal
deriving Repr

/-- Python dict key lookup `d[k]` / `k in d` on a JSON object's fields,
first binding wins (a `json.load`ed dict has unique keys). -/
def lookupField (fields : List (String × JVal)) (k : String) : Option JVal :=
  match fields with
  | [] => none
  | (k1, v1) :: rest => if k1 == k then some v1 else lookupField rest k

/-- Python dict assignment `d[k] = v`: overwrite the existing binding in
place, or append a new one at the end (insertion order is preserved). -/
def setField (fields : List (String × JVal)) (k : String) (v : JVal) :
    List (String × JVal) :=
  match fields with
  | [] => [(k, v)]
  | (k1, v1) :: rest =>
    if k1 == k then (k, v) :: rest else (k1, v1) :: setField rest k v

/-- The body of the migration list comprehension (src/app.py line 158 /
line 457): `"Sci-Fi" if genre == "Science Fiction" else genre`.  A
non-string `genre` is never equal to the string, so it passes through. -/
def remapTag : JVal → JVal
  | .jstr s => if s = "Science Fiction" then .jstr "Sci-Fi" else .jstr s
  | v => v

/-- Evaluating `[remapTag genre for genre in g]` where `g` is the value of
`book["genres"]`: iterating a JSON array yields its elements; iterating a
string yields its characters as one-character strings; iterating an object
yields its keys; anything else raises `TypeError` (modelled as `none`). -/
def migrateGenres : JVal → Option JVal
  | .jarr xs => some (.jarr (xs.map remapTag))
  | .jstr s => some (.jarr (s.data.map (fun c => remapTag (.jstr (String.singleton c)))))
  | .jobj fields => some (.jarr (fields.map (fun p => remapTag (.jstr p.1))))
  | _ => none

/-- One iteration of the migration loop (src/app.py lines 154-158 and
454-457) on a single loaded item: backfill a missing `"genres"` key with
`[]`, then rebuild `book["genres"]` with the legacy-tag remap.  A non-dict
item raises (`"genres" not in book` raises on numbers/booleans/null, and
`book["genres"]` read or assignment raises on strings and arrays), leaving
the item as it was; `none` models that exception.  `backfill` is the
`if "genres" not in book` default-fill step on a dict's fields. -/
def backfill (fields : List (String × JVal)) : List (String × JVal) :=
  if (lookupField fields "genres").isNone then setField fields "genres" (.jarr [])
  else fields

def migrateBook : JVal → Option JVal
  | .jobj fields =>
    match lookupField (backfill fields) "genres" with
    | some g =>
      (migrateGenres g).map (fun g2 => .jobj (setField (backfill fields) "genres" g2))
    | none => none
  | _ => none

/-- The migration `for` loop over a loaded JSON array, with Python's
in-place dict mutation: items before a failing item are already migrated
when the exception escapes, the failing item and the rest stay raw.  The
boolean is `true` when the loop finished without raising. -/
def migrateInPlace : List JVal → List JVal × Bool
  | [] => ([], true)
  | b :: bs =>
    match migrateBook b with
    | none => (b :: bs, false)
    | some b2 =>
      let r := migrateInPlace bs
      (b2 :: r.1, r.2)

/-- Running the migration loop on an arbitrary loaded root value.  A JSON
array is migrated (possibly partially).  Iterating a non-empty object or
string yields key/character strings, on which the loop body raises without
being able to mutate anything; an empty object or string makes the loop a
no-op, so the load *succeeds*; other roots raise `TypeError` at the `for`
itself.  Returns (store after the block, success). -/
def loadMigrate : JVal → JVal × Bool
  | .jarr xs =>
    let r := migrateInPlace xs
    (.jarr r.1, r.2)
  | .jobj [] => (.jobj [], true)
  | .jobj (f :: fs) => (.jobj (f :: fs), false)
  | .jstr s => (.jstr s, s.isEmpty)
  | v => (v, false)

/-- The Load Library block (src/app.py lines 447-461, same shape as the
session-start block at lines 148-162).  `file = none`: the file does not
exist (error branch, store untouched).  `file = some none`: `open` or
`json.load` raised, before the assignment to `st.session_state.library`,
so the store is untouched.  `file = some (some v)`: the store is first
replaced wholesale by `v`, then the migration loop runs over it in place;
if the loop raises, the `except` reports the error but the store keeps the
(partially migrated) loaded value.  Returns (store after the block,
whether the success message was shown). -/
def loadLibrary (cur : JVal) (file : Option (Option JVal)) : JVal × Bool :=
  match file with
  | none => (cur, false)
  | some none => (cur, false)
  | some (some v) => loadMigrate v

/-- Serialization of one in-memory book to JSON, field order as the dict in
`add_book`.  `json.dump` cannot emit raw Python bytes — the spec records
the cover-image encoding as an explicit gap — so the model fixes one
concrete encoding (a JSON array of byte values, `null` when absent); the
round-trip statements hold "modulo the chosen cover-image encoding". -/
def toJson (b : Book) : JVal :=
  .jobj
    [("title", .jstr b.title),
     ("author", .jstr b.author),
     ("publication_year", .jnum b.publication_year),
     ("genres", .jarr (b.genres.map (fun g => .jstr g))),
     ("read_status", .jbool b.read_status),
     ("date_added", .jstr b.date_added),
     ("cover_image",
       match b.cover_image with
       | none => .jnull
       | some bytes => .jarr (bytes.map (fun n => .jnum (n : Int)))),
     ("rating", .jnum b.rating),
     ("review", .jstr b.review)]

/-- `save_library` (src/app.py lines 165-171): `json.dump` of the whole
in-memory list, i.e. the JSON document written to disk. -/
def saveJson (lib : List Book) : JVal :=
  .jarr (lib.map toJson)

/-- Migrating every item of a loaded list, `none` when any item raises. -/
def migrateAll : List JVal → Option (List JVal)
  | [] => some []
  | b :: bs =>
    match migrateBook b, migrateAll bs with
    | some b2, some bs2 => some (b2 :: bs2)
    | _, _ => none

/-- The `"genres"` value of a loaded record, when the record is an object. -/
def genresOf : JVal → Option JVal
  | .jobj fields => lookupField fields "genres"
  | _ => none

/-! ## Sample data used by witnesses and counterexamples -/

/-- A read book tagged `Fiction`. -/
def sampleFiction : Book :=
  { title := "Dune"
    author := "Frank Herbert"
    publication_year := 1965
    genres := ["Fiction"]
    read_status := true
    date_added := "2024-01-01 10:00:00"
    cover_image := none
    rating := 5
    review := "classic" }

/-- An unread book tagged `Non-Fiction`. -/
def sampleNonFiction : Book :=
  { title := "Cosmos"
    author := "Carl Sagan"
    publication_year := 1980
    genres := ["Non-Fiction"]
    read_status := false
    date_added := "2024-01-02 11:00:00"
    cover_image := none
    rating := 0
    review := "" }

/-- A book tagged only `Sci-Fi`. -/
def sampleSciFi : Book :=
  { title := "Neuromancer"
    author := "William Gibson"
    publication_year := 1984
    genres := ["Sci-Fi"]
    read_status := true
    date_added := "2024-01-03 12:00:00"
    cover_image := none
    rating := 4
    review := "" }

/-- A book whose genre list still carries the legacy tag, as a pre-migration
library on disk could contain. -/
def sampleLegacy : Book :=
  { title := "Foundation"
    author := "Isaac Asimov"
    publication_year := 1951
    genres := ["Science Fiction"]
    read_status := false
    date_added := "2024-01-04 13:00:00"
    cover_image := none
    rating := 3
    review := "" }

/-- `sampleLegacy` after the load-time migration rewrote its genre tag. -/
def sampleLegacyMigrated : Book :=
  { sampleLegacy with genres := ["Sci-Fi"] }

/-! ## Helper lemmas -/

/-- Summing the `1 if read else 0` comprehension counts the read books. -/
theorem sum_read_eq_countP (l : List Book) :
    (l.map (fun book => if book.read_status then 1 else 0)).sum =
      l.countP (fun b => b.read_status) := by
  induction l with
  | nil => rfl
  | cons b rest ih =>
    by_cases h : b.read_status
    · simp [h, ih, List.countP_cons]
      omega
    · simp [h, ih, List.countP_cons]

/-- `pyIndex` yields nothing exactly when the integer index addresses none
of the `n` list elements (Python indexing: valid indexes are `-n ≤ i < n`). -/
theorem pyIndex_eq_none_iff (n : Nat) (i : Int) :
    pyIndex n i = none ↔ ¬(-(n : Int) ≤ i ∧ i < (n : Int)) := by
  by_cases h0 : i < 0
  · simp only [pyIndex, h0, if_true]
    by_cases h : (0 : Int) ≤ i + n ∧ i + n < n
    · rw [dif_pos h]
      constructor
      · intro hc
        exact Option.noConfusion hc
      · intro hr
        exact absurd ⟨by omega, by omega⟩ hr
    · rw [dif_neg h]
      constructor
      · intro _ hr
        exact h ⟨by omega, by omega⟩
      · intro _
        rfl
  · simp only [pyIndex, h0, if_false]
    by_cases h : (0 : Int) ≤ i ∧ i < n
    · rw [dif_pos h]
      constructor
      · intro hc
        exact Option.noConfusion hc
      · intro hr
        exact absurd ⟨by omega, by omega⟩ hr
    · rw [dif_neg h]
      constructor
      · intro _ hr
        exact h ⟨by omega, by omega⟩
      · intro _
        rfl

/-- Replacing a list element by one that agrees on `f` leaves the `f`-image
of the list unchanged. -/
theorem map_set_self (l : List α) (j : Nat) (x : α) (f : α → β)
    (h : ∀ hj : j < l.length, f x = f (l.get ⟨j, hj⟩)) :
    (l.set j x).map f = l.map f := by
  apply List.ext_getElem
  · simp
  · intro i h1 h2
    simp only [List.getElem_map, List.getElem_set]
    split
    · rename_i hji
      subst hji
      exact h (by simpa using h2)
    · rfl

/-! ## Claim theorems -/

/-- C9: `get_statistics` returns the record count, the count of records
with `read_status` true, and a percentage that is `0` on an empty store
(no division by zero) and exactly `100 * read_count / total` otherwise,
unrounded. -/
theorem get_statistics_spec (lib : List Book) :
    (get_statistics lib).1 = lib.length ∧
    (get_statistics lib).2.1 = lib.countP (fun b => b.read_status) ∧
    (lib.length = 0 → (get_statistics lib).2.2 = 0) ∧
    (lib.length ≠ 0 →
      (get_statistics lib).2.2 =
        100 * ((lib.countP (fun b => b.read_status) : ℚ)) / (lib.length : ℚ)) := by
  refine ⟨rfl, ?_, ?_, ?_⟩
  · simp [get_statistics, sum_read_eq_countP]
  · intro h
    simp [get_statistics, h]
  · intro h
    have hpos : 0 < lib.length := Nat.pos_of_ne_zero h
    simp only [get_statistics, sum_read_eq_countP, hpos, if_pos]
    ring

/-- C9 witness: a two-book store with one read book has statistics
`(2, 1, 50)`. -/
theorem get_statistics_spec_witness :
    ([sampleFiction, sampleNonFiction] : List Book).length ≠ 0 ∧
    (get_statistics [sampleFiction, sampleNonFiction]).2.2 =
      100 * ((([sampleFiction, sampleNonFiction] : List Book).countP
        (fun b => b.read_status) : ℚ)) /
        (([sampleFiction, sampleNonFiction] : List Book).length : ℚ) :=
  ⟨by decide, (get_statistics_spec [sampleFiction, sampleNonFiction]).2.2.2 (by decide)⟩

/-- C10: `search_books` with a `search_by` value other than `"title"`,
`"author"` or `"genre"` falls through every branch of the `if`/`elif`
chain and returns the empty list (no error, the store is read-only here). -/
theorem search_books_unknown_field (lib : List Book) (query search_by : String)
    (h1 : search_by ≠ "title") (h2 : search_by ≠ "author")
    (h3 : search_by ≠ "genre") :
    search_books lib query search_by = [] := by
  unfold search_books
  induction lib with
  | nil => rfl
  | cons b rest ih => simp [searchLoop, h1, h2, h3, ih]

/-- C10 witness: searching a nonempty store by the field `"publisher"`
returns nothing. -/
theorem search_books_unknown_field_witness :
    search_books [sampleFiction, sampleSciFi] "a" "publisher" = [] :=
  search_books_unknown_field [sampleFiction, sampleSciFi] "a" "publisher"
    (by decide) (by decide) (by decide)

/-- C1 counterexample: `add_book` itself performs no validation — called
with an empty title, empty author and empty genre list it still appends a
record and returns `True`, so the claim as stated about `add_book` fails. -/
theorem add_book_no_validation :
    (add_book [] "" "" 2023 [] false none 0 "" "2024-01-01 00:00:00").2 = true ∧
    (add_book [] "" "" 2023 [] false none 0 "" "2024-01-01 00:00:00").1 ≠ [] := by
  exact ⟨rfl, by decide⟩

/-- C1 (amended): the required-field validation lives in the form-submit
handlers, which test Python truthiness of title, author and genres before
calling `add_book`/`edit_book`; with an empty title, empty author or empty
genre list the submission reports a validation error, never calls the
mutators, leaves the store unchanged and attempts no persistence. -/
theorem submit_rejects_empty_fields (lib : List Book) (index : Int)
    (title author : String) (publication_year : Int) (genres : List String)
    (read_status : Bool) (cover_image : Option (List Nat)) (rating : Int)
    (review now : String)
    (h : title = "" ∨ author = "" ∨ genres = []) :
    submitAddBook lib title author publication_year genres read_status
      cover_image rating review now = (lib, false) ∧
    submitEditBook lib index title author publication_year genres read_status
      cover_image rating review = (lib, false) := by
  rcases h with h | h | h <;> subst h <;>
    simp [submitAddBook, submitEditBook]

/-- C1 witness: submitting the add and edit forms with an empty title on a
one-book store is rejected and leaves the store as it was. -/
theorem submit_rejects_empty_fields_witness :
    (("" : String) = "" ∨ ("A" : String) = "" ∨ (["Fiction"] : List String) = []) ∧
    submitAddBook [sampleFiction] "" "A" 2023 ["Fiction"] false none 0 "" "d" =
      ([sampleFiction], false) ∧
    submitEditBook [sampleFiction] 0 "" "A" 2023 ["Fiction"] false none 0 "" =
      ([sampleFiction], false) :=
  ⟨Or.inl rfl,
    submit_rejects_empty_fields [sampleFiction] 0 "" "A" 2023 ["Fiction"] false
      none 0 "" "d" (Or.inl rfl)⟩

/-- C3: `edit_book` raises an `IndexError` (modelled as `none`) exactly
when the index addresses none of the existing records under Python list
indexing (`-n ≤ index < n`, negative indexes counting from the end), and
on that failure the store is left unchanged with no persistence. -/
theorem edit_book_index_spec (lib : List Book) (index : Int)
    (title author : String) (publication_year : Int) (genres : List String)
    (read_status : Bool) (cover_image : Option (List Nat)) (rating : Int)
    (review : String) :
    (edit_book lib index title author publication_year genres read_status
        cover_image rating review = none ↔
      ¬(-(lib.length : Int) ≤ index ∧ index < (lib.length : Int))) ∧
    (edit_book lib index title author publication_year genres read_status
        cover_image rating review = none →
      edit_book_state lib index title author publication_year genres
        read_status cover_image rating review = (lib, false)) := by
  constructor
  · rw [← pyIndex_eq_none_iff lib.length index]
    unfold edit_book
    cases h : pyIndex lib.length index <;> simp [h]
  · intro h
    unfold edit_book_state
    rw [h]

/-- C3 witness: on a one-book store, index 5 addresses no record, the edit
raises, and the store is untouched. -/
theorem edit_book_index_spec_witness :
    (edit_book [sampleFiction] 5 "T" "A" 2000 ["Other"] false none 1 "" = none ↔
      ¬(-((([sampleFiction] : List Book)).length : Int) ≤ 5 ∧
        (5 : Int) < (([sampleFiction] : List Book).length : Int))) ∧
    edit_book_state [sampleFiction] 5 "T" "A" 2000 ["Other"] false none 1 "" =
      ([sampleFiction], false) :=
  ⟨(edit_book_index_spec [sampleFiction] 5 "T" "A" 2000 ["Other"] false none 1 "").1,
    (edit_book_index_spec [sampleFiction] 5 "T" "A" 2000 ["Other"] false none 1 "").2
      (by decide)⟩

/-- C4: `remove_book` keeps exactly the records whose lowercased title
differs from the lowercased argument (so it removes all case-insensitive
exact matches), succeeds exactly when some record matched, returns `False`
without persisting or changing the store when none matched, and two title
arguments with the same lowercasing (such as `"Title"` and `"TITLE"`) give
identical results. -/
theorem remove_book_spec (lib : List Book) (t t2 : String) :
    (remove_book lib t).1 = lib.filter (fun b => strLower b.title != strLower t) ∧
    ((remove_book lib t).2 = true ↔ ∃ b ∈ lib, strLower b.title = strLower t) ∧
    ((remove_book lib t).2 = false → remove_book lib t = (lib, false)) ∧
    (strLower t = strLower t2 → remove_book lib t = remove_book lib t2) ∧
    remove_book lib "Title" = remove_book lib "TITLE" := by
  have hle := List.length_filter_le
    (fun b : Book => strLower b.title != strLower t) lib
  have hiff :
      (remove_book lib t).2 = true ↔ ∃ b ∈ lib, strLower b.title = strLower t := by
    unfold remove_book
    split
    · rename_i hlt
      have hex : ∃ b ∈ lib, strLower b.title = strLower t := by
        by_contra hno
        push_neg at hno
        have hall : ∀ b ∈ lib, (fun b : Book => strLower b.title != strLower t) b := by
          intro b hb
          simpa [bne_iff_ne] using hno b hb
        rw [List.filter_length_eq_length.mpr hall] at hlt
        omega
      exact iff_of_true rfl hex
    · rename_i hnlt
      have hnex : ¬ ∃ b ∈ lib, strLower b.title = strLower t := by
        rintro ⟨b, hb, hmatch⟩
        have heq : (lib.filter (fun b => strLower b.title != strLower t)).length
            = lib.length := Nat.le_antisymm hle (Nat.le_of_not_lt hnlt)
        have hb2 := List.filter_length_eq_length.mp heq b hb
        simp only [bne_iff_ne, ne_eq] at hb2
        exact hb2 hmatch
      exact iff_of_false (by simp) hnex
  refine ⟨?_, hiff, ?_, ?_, ?_⟩
  · unfold remove_book
    split
    · rfl
    · rename_i hnlt
      have heq : (lib.filter (fun b => strLower b.title != strLower t)).length
          = lib.length := Nat.le_antisymm hle (Nat.le_of_not_lt hnlt)
      exact (List.filter_eq_self.mpr (List.filter_length_eq_length.mp heq)).symm
  · intro hfalse
    unfold remove_book at hfalse ⊢
    split at hfalse
    · simp at hfalse
    · rename_i hnlt
      rw [if_neg hnlt]
  · intro h
    simp only [remove_book, h]
  · have h5 : strLower "Title" = strLower "TITLE" := by decide
    simp only [remove_book, h5]

/-- C4 witness: removing `"DUNE"` from a store holding `"Dune"` and
`"Cosmos"` removes the one matching record and succeeds; the remaining
conjuncts are instantiated at the same store. -/
theorem remove_book_spec_witness :
    (remove_book [sampleFiction, sampleNonFiction] "DUNE").1 =
      ([sampleFiction, sampleNonFiction] : List Book).filter
        (fun b => strLower b.title != strLower "DUNE") ∧
    ((remove_book [sampleFiction, sampleNonFiction] "DUNE").2 = true ↔
      ∃ b ∈ ([sampleFiction, sampleNonFiction] : List Book),
        strLower b.title = strLower "DUNE") ∧
    (strLower "DUNE" = strLower "dune" →
      remove_book [sampleFiction, sampleNonFiction] "DUNE" =
        remove_book [sampleFiction, sampleNonFiction] "dune") := by
  have h := remove_book_spec [sampleFiction, sampleNonFiction] "DUNE" "dune"
  exact ⟨h.1, h.2.1, fun _ => h.2.2.2.1 (by decide)⟩

/-- C7: for every input, `add_book` appends exactly one record at the end
of the store, stamping the new record's `date_added` with the creation
time; and no `edit_book` call ever alters any record's `date_added` (the
`update` dict omits that key). -/
theorem add_book_grows_and_date_added_immutable (lib : List Book)
    (title author : String) (publication_year : Int) (genres : List String)
    (read_status : Bool) (cover_image : Option (List Nat)) (rating : Int)
    (review now : String) :
    (add_book lib title author publication_year genres read_status cover_image
        rating review now).1.length = lib.length + 1 ∧
    (add_book lib title author publication_year genres read_status cover_image
        rating review now).1 =
      lib ++ [{ title := title, author := author,
                publication_year := publication_year, genres := genres,
                read_status := read_status, date_added := now,
                cover_image := cover_image, rating := rating,
                review := review }] ∧
    (∀ (lib' lib'' : List Book) (i : Int) (t' a' : String) (y' : Int)
        (g' : List String) (rs' : Bool) (c' : Option (List Nat)) (r' : Int)
        (rv' : String),
      edit_book lib' i t' a' y' g' rs' c' r' rv' = some lib'' →
      lib''.map Book.date_added = lib'.map Book.date_added) := by
  refine ⟨by simp [add_book], rfl, ?_⟩
  intro lib' lib'' i t' a' y' g' rs' c' r' rv' h
  unfold edit_book at h
  cases hj : pyIndex lib'.length i with
  | none => rw [hj] at h; exact Option.noConfusion h
  | some j =>
    rw [hj] at h
    simp only [Option.some.injEq] at h
    subst h
    exact map_set_self lib' j.val _ Book.date_added
      (fun hj2 => by congr 1)

/-- C7 witness: adding to a two-book store gives three books, and an edit
of the first book leaves every `date_added` in place. -/
theorem add_book_grows_witness :
    (add_book [sampleFiction, sampleNonFiction] "T" "A" 2000 ["Other"] false
        none 1 "" "2024-05-05 09:00:00").1.length =
      ([sampleFiction, sampleNonFiction] : List Book).length + 1 ∧
    (edit_book [sampleFiction] 0 "X" "Y" 2001 ["Other"] true none 2 "r" =
        some [{ title := "X", author := "Y", publication_year := 2001,
                genres := ["Other"], read_status := true,
                date_added := "2024-01-01 10:00:00", cover_image := none,
                rating := 2, review := "r" }] →
      ([{ title := "X", author := "Y", publication_year := 2001,
          genres := ["Other"], read_status := true,
          date_added := "2024-01-01 10:00:00", cover_image := none,
          rating := 2, review := "r" }] : List Book).map Book.date_added =
        ([sampleFiction] : List Book).map Book.date_added) ∧
    ([{ title := "X", author := "Y", publication_year := 2001,
        genres := ["Other"], read_status := true,
        date_added := "2024-01-01 10:00:00", cover_image := none,
        rating := 2, review := "r" }] : List Book).map Book.date_added =
      ([sampleFiction] : List Book).map Book.date_added := by
  have h := add_book_grows_and_date_added_immutable [sampleFiction, sampleNonFiction]
    "T" "A" 2000 ["Other"] false none 1 "" "2024-05-05 09:00:00"
  refine ⟨h.1, h.2.2 [sampleFiction] _ 0 "X" "Y" 2001 ["Other"] true none 2 "r", ?_⟩
  exact h.2.2 [sampleFiction] _ 0 "X" "Y" 2001 ["Other"] true none 2 "r" (by decide)

/-- The `search_books` loop specialised to the `"title"` field is a filter
by lowercased-substring match on the title. -/
theorem searchLoop_title (q : String) (l : List Book) :
    searchLoop q "title" l = l.filter (fun b => pyIn q (strLower b.title)) := by
  induction l with
  | nil => rfl
  | cons b rest ih => simp [searchLoop, List.filter_cons, ih]

/-- The `search_books` loop specialised to the `"author"` field. -/
theorem searchLoop_author (q : String) (l : List Book) :
    searchLoop q "author" l = l.filter (fun b => pyIn q (strLower b.author)) := by
  induction l with
  | nil => rfl
  | cons b rest ih => simp [searchLoop, List.filter_cons, ih]

/-- The `search_books` loop specialised to the `"genre"` field: a record
matches when any of its genre tags contains the query as a substring. -/
theorem searchLoop_genre (q : String) (l : List Book) :
    searchLoop q "genre" l =
      l.filter (fun b => b.genres.any (fun g => pyIn q (strLower g))) := by
  induction l with
  | nil => rfl
  | cons b rest ih => simp [searchLoop, List.filter_cons, ih]

/-- C8: `search_books` does a case-insensitive substring match on the
selected field, a genre search matching when ANY tag contains the query,
and returns the matches as an in-order filter of the store; concretely, a
genre search for `"fic"` matches books tagged `Fiction` and `Non-Fiction`
but not a book tagged only `Sci-Fi`. -/
theorem search_books_spec (lib : List Book) (query : String) :
    search_books lib query "title" =
      lib.filter (fun b => pyIn (strLower query) (strLower b.title)) ∧
    search_books lib query "author" =
      lib.filter (fun b => pyIn (strLower query) (strLower b.author)) ∧
    search_books lib query "genre" =
      lib.filter (fun b => b.genres.any (fun g => pyIn (strLower query) (strLower g))) ∧
    search_books [sampleFiction, sampleNonFiction, sampleSciFi] "fic" "genre" =
      [sampleFiction, sampleNonFiction] ∧
    search_books [sampleSciFi] "fic" "genre" = [] :=
  ⟨searchLoop_title (strLower query) lib, searchLoop_author (strLower query) lib,
    searchLoop_genre (strLower query) lib, by decide, by decide⟩

/-! ## Persistence and migration lemmas -/

/-- Looking up a key just written finds the written value. -/
theorem lookupField_setField (fs : List (String × JVal)) (k : String) (v : JVal) :
    lookupField (setField fs k v) k = some v := by
  induction fs with
  | nil => simp [setField, lookupField]
  | cons p rest ih =>
    rcases p with ⟨k1, v1⟩
    by_cases h : k1 == k
    · simp [setField, h, lookupField]
    · simp [setField, h, lookupField, ih]

/-- Writing the same key twice keeps only the second write. -/
theorem setField_setField (fs : List (String × JVal)) (k : String) (v v2 : JVal) :
    setField (setField fs k v) k v2 = setField fs k v2 := by
  induction fs with
  | nil => simp [setField]
  | cons p rest ih =>
    rcases p with ⟨k1, v1⟩
    by_cases h : k1 == k
    · simp [setField, h]
    · simp [setField, h, ih]

/-- Writing back a value the dict already holds changes nothing. -/
theorem setField_of_lookup (fs : List (String × JVal)) (k : String) (v : JVal)
    (h : lookupField fs k = some v) : setField fs k v = fs := by
  induction fs with
  | nil => simp [lookupField] at h
  | cons p rest ih =>
    rcases p with ⟨k1, v1⟩
    by_cases hk : k1 == k
    · simp only [lookupField, hk, if_true, Option.some.injEq] at h
      subst h
      simp only [setField, hk, if_true]
      have : k1 = k := by simpa using hk
      rw [this]
    · simp only [lookupField, hk, if_false] at h
      simp [setField, hk, ih h]

/-- The genre remap is idempotent. -/
theorem remapTag_idem (v : JVal) : remapTag (remapTag v) = remapTag v := by
  cases v with
  | jstr s =>
    by_cases h : s = "Science Fiction"
    · subst h
      rfl
    · simp [remapTag, h]
  | jnull => rfl
  | jbool b => rfl
  | jnum n => rfl
  | jarr xs => rfl
  | jobj fs => rfl

/-- The genre remap never outputs the legacy tag. -/
theorem remapTag_ne_legacy (v : JVal) :
    remapTag v ≠ JVal.jstr "Science Fiction" := by
  cases v with
  | jstr s =>
    by_cases h : s = "Science Fiction"
    · subst h
      intro hc
      rw [show remapTag (JVal.jstr "Science Fiction") = JVal.jstr "Sci-Fi" from rfl]
        at hc
      injection hc with h2
      exact absurd h2 (by decide)
    · simp [remapTag, h]
  | jnull => simp [remapTag]
  | jbool b => simp [remapTag]
  | jnum n => simp [remapTag]
  | jarr xs => simp [remapTag]
  | jobj fs => simp [remapTag]

/-- Every successful `book["genres"]` migration yields a JSON array whose
elements are outputs of the remap. -/
theorem migrateGenres_shape (g g2 : JVal) (h : migrateGenres g = some g2) :
    ∃ ws : List JVal, g2 = .jarr (ws.map remapTag) := by
  cases g with
  | jarr xs =>
    refine ⟨xs, ?_⟩
    simp only [migrateGenres, Option.some.injEq] at h
    exact h.symm
  | jstr s =>
    refine ⟨s.data.map (fun c => JVal.jstr (String.singleton c)), ?_⟩
    simp only [migrateGenres, Option.some.injEq] at h
    rw [← h, List.map_map]
    rfl
  | jobj fs =>
    refine ⟨fs.map (fun p => JVal.jstr p.1), ?_⟩
    simp only [migrateGenres, Option.some.injEq] at h
    rw [← h, List.map_map]
    rfl
  | jnull => simp [migrateGenres] at h
  | jbool b => simp [migrateGenres] at h
  | jnum n => simp [migrateGenres] at h

/-- Remapping a list of remap outputs changes nothing. -/
theorem map_remapTag_idem (ws : List JVal) :
    (ws.map remapTag).map remapTag = ws.map remapTag := by
  rw [List.map_map]
  exact List.map_congr_left (fun w _ => remapTag_idem w)

/-- A dict that already has a `"genres"` key is not touched by the
backfill. -/
theorem backfill_of_lookup (fs : List (String × JVal)) (g : JVal)
    (h : lookupField fs "genres" = some g) : backfill fs = fs := by
  simp [backfill, h]

/-- One-record idempotence, and the shape of a migrated record: the
migration fixes its own successful outputs, which are objects whose
`"genres"` value is an array free of the legacy tag. -/
theorem migrateBook_idem (b b2 : JVal) (h : migrateBook b = some b2) :
    migrateBook b2 = some b2 ∧
    ∃ gs, genresOf b2 = some (.jarr gs) ∧ JVal.jstr "Science Fiction" ∉ gs := by
  cases b with
  | jobj fields =>
    cases hg : lookupField (backfill fields) "genres" with
    | none =>
      simp only [migrateBook, hg] at h
      exact Option.noConfusion h
    | some g =>
      cases hmg : migrateGenres g with
      | none =>
        simp only [migrateBook, hg, hmg, Option.map_none'] at h
        exact Option.noConfusion h
      | some g2 =>
        simp only [migrateBook, hg, hmg, Option.map_some', Option.some.injEq] at h
        obtain ⟨ws, hws⟩ := migrateGenres_shape g g2 hmg
        subst hws
        set F2 := setField (backfill fields) "genres" (.jarr (ws.map remapTag)) with hF2
        have hlook : lookupField F2 "genres" = some (.jarr (ws.map remapTag)) :=
          lookupField_setField _ _ _
        have hback : backfill F2 = F2 := backfill_of_lookup _ _ hlook
        have hnotin : JVal.jstr "Science Fiction" ∉ ws.map remapTag := by
          intro hmem
          obtain ⟨w, _, hw⟩ := List.mem_map.mp hmem
          exact remapTag_ne_legacy w hw
        constructor
        · rw [← h]
          simp only [migrateBook, hback, hlook, migrateGenres, Option.map_some',
            Option.some.injEq, map_remapTag_idem]
          rw [hF2, setField_setField]
        · refine ⟨ws.map remapTag, ?_, hnotin⟩
          rw [← h]
          simpa [genresOf] using hlook
  | jnull => simp [migrateBook] at h
  | jbool bb => simp [migrateBook] at h
  | jnum n => simp [migrateBook] at h
  | jstr s => simp [migrateBook] at h
  | jarr xs => simp [migrateBook] at h

/-- When every item of a loaded list migrates, the in-place loop finishes,
producing exactly the migrated list. -/
theorem migrateInPlace_of_all (xs ys : List JVal) (h : migrateAll xs = some ys) :
    migrateInPlace xs = (ys, true) := by
  induction xs generalizing ys with
  | nil =>
    simp only [migrateAll, Option.some.injEq] at h
    subst h
    rfl
  | cons b bs ih =>
    cases hb : migrateBook b with
    | none => simp [migrateAll, hb] at h
    | some b2 =>
      cases hbs : migrateAll bs with
      | none => simp [migrateAll, hb, hbs] at h
      | some bs2 =>
        simp only [migrateAll, hb, hbs, Option.some.injEq] at h
        subst h
        simp [migrateInPlace, hb, ih bs2 hbs]

/-- A record serialized from memory with no legacy genre tag passes the
migration unchanged. -/
theorem migrateBook_toJson (b : Book) (h : "Science Fiction" ∉ b.genres) :
    migrateBook (toJson b) = some (toJson b) := by
  have hmap : (b.genres.map (fun g => JVal.jstr g)).map remapTag
      = b.genres.map (fun g => JVal.jstr g) := by
    rw [List.map_map]
    apply List.map_congr_left
    intro g hg
    have hne : g ≠ "Science Fiction" := fun he => h (he ▸ hg)
    simp [Function.comp, remapTag, hne]
  have h1 : migrateBook (toJson b) =
      some (.jobj (setField
        [("title", .jstr b.title),
         ("author", .jstr b.author),
         ("publication_year", .jnum b.publication_year),
         ("genres", .jarr (b.genres.map (fun g => .jstr g))),
         ("read_status", .jbool b.read_status),
         ("date_added", .jstr b.date_added),
         ("cover_image",
           match b.cover_image with
           | none => .jnull
           | some bytes => .jarr (bytes.map (fun n => .jnum (n : Int)))),
         ("rating", .jnum b.rating),
         ("review", .jstr b.review)]
        "genres" (.jarr ((b.genres.map (fun g => .jstr g)).map remapTag)))) := rfl
  rw [h1, hmap]
  rfl

/-- Serialized libraries free of the legacy tag migrate to themselves. -/
theorem migrateAll_toJson (lib : List Book)
    (h : ∀ b ∈ lib, "Science Fiction" ∉ b.genres) :
    migrateAll (lib.map toJson) = some (lib.map toJson) := by
  induction lib with
  | nil => rfl
  | cons b bs ih =>
    have hb := migrateBook_toJson b (h b (by simp))
    have hbs := ih (fun x hx => h x (by simp [hx]))
    simp [migrateAll, hb, hbs]

/-- C6: the load-time migration (genres backfill plus legacy-tag remap) is
idempotent — running it over its own successful output reproduces that
output exactly — and every migrated record's genre array is free of the
tag `"Science Fiction"`, so the legacy tag never survives a load. -/
theorem migration_idempotent (xs ys : List JVal) (h : migrateAll xs = some ys) :
    migrateAll ys = some ys ∧
    ∀ b ∈ ys, ∃ gs : List JVal, genresOf b = some (.jarr gs) ∧
      JVal.jstr "Science Fiction" ∉ gs := by
  induction xs generalizing ys with
  | nil =>
    simp only [migrateAll, Option.some.injEq] at h
    subst h
    exact ⟨rfl, by simp⟩
  | cons b bs ih =>
    cases hb : migrateBook b with
    | none => simp [migrateAll, hb] at h
    | some b2 =>
      cases hbs : migrateAll bs with
      | none => simp [migrateAll, hb, hbs] at h
      | some bs2 =>
        simp only [migrateAll, hb, hbs, Option.some.injEq] at h
        subst h
        obtain ⟨hb1, hb2⟩ := migrateBook_idem b b2 hb
        obtain ⟨hs1, hs2⟩ := ih bs2 hbs
        exact ⟨by simp [migrateAll, hb1, hs1], fun x hx => by
          rcases List.mem_cons.mp hx with hx | hx
          · subst hx; exact hb2
          · exact hs2 x hx⟩

/-- C6 witness: migrating a library holding one `"Science Fiction"` record
yields the `"Sci-Fi"` form, which the migration then fixes. -/
theorem migration_idempotent_witness :
    migrateAll [toJson sampleLegacyMigrated] = some [toJson sampleLegacyMigrated] ∧
    ∀ b ∈ [toJson sampleLegacyMigrated], ∃ gs : List JVal,
      genresOf b = some (.jarr gs) ∧ JVal.jstr "Science Fiction" ∉ gs :=
  migration_idempotent [toJson sampleLegacy] [toJson sampleLegacyMigrated] (by rfl)

/-- C5 counterexample: a file whose JSON decodes to `[0]` makes the load
fail (the migration loop raises on the non-dict item and the error is
reported), yet the in-memory store has already been replaced by the raw
loaded value — it is not left unchanged. -/
theorem load_failure_overwrites :
    (loadLibrary (saveJson [sampleFiction]) (some (some (.jarr [.jnum 0])))).2
      = false ∧
    (loadLibrary (saveJson [sampleFiction]) (some (some (.jarr [.jnum 0])))).1
      ≠ saveJson [sampleFiction] := by
  refine ⟨rfl, ?_⟩
  rw [show (loadLibrary (saveJson [sampleFiction])
      (some (some (.jarr [.jnum 0])))).1 = .jarr [.jnum 0] from rfl]
  intro hc
  simp [saveJson, toJson] at hc

/-- C5 (amended): when the file is missing or reading/decoding raises, the
exception fires before the store assignment, so the in-memory store is
untouched; when the decoded document is a sequence of records that all
migrate, the store is replaced wholesale by the fully migrated sequence.
(But when the decode succeeds and the migration then raises, the store has
already been overwritten — see the counterexample.) -/
theorem load_spec (cur : JVal) (xs ys : List JVal)
    (h : migrateAll xs = some ys) :
    loadLibrary cur none = (cur, false) ∧
    loadLibrary cur (some none) = (cur, false) ∧
    loadLibrary cur (some (some (.jarr xs))) = (.jarr ys, true) := by
  refine ⟨rfl, rfl, ?_⟩
  simp [loadLibrary, loadMigrate, migrateInPlace_of_all xs ys h]

/-- C5 witness: with a one-record store in memory, a missing file and a
decode failure leave it untouched, and loading a one-record legacy file
replaces it with the migrated record. -/
theorem load_spec_witness :
    loadLibrary (saveJson [sampleFiction]) none = (saveJson [sampleFiction], false) ∧
    loadLibrary (saveJson [sampleFiction]) (some none)
      = (saveJson [sampleFiction], false) ∧
    loadLibrary (saveJson [sampleFiction]) (some (some (.jarr [toJson sampleLegacy])))
      = (.jarr [toJson sampleLegacyMigrated], true) :=
  load_spec (saveJson [sampleFiction]) [toJson sampleLegacy]
    [toJson sampleLegacyMigrated] (by rfl)

/-- C2 counterexample: a store holding a record still tagged
`"Science Fiction"` is not reproduced by save-then-load — the load
succeeds but the migration rewrites the tag to `"Sci-Fi"`, so the loaded
store differs from the saved one. -/
theorem save_load_changes_legacy_store :
    (loadLibrary (saveJson [sampleLegacy])
      (some (some (saveJson [sampleLegacy])))).2 = true ∧
    (loadLibrary (saveJson [sampleLegacy])
      (some (some (saveJson [sampleLegacy])))).1 ≠ saveJson [sampleLegacy] := by
  refine ⟨rfl, ?_⟩
  rw [show (loadLibrary (saveJson [sampleLegacy])
      (some (some (saveJson [sampleLegacy])))).1
      = .jarr [toJson sampleLegacyMigrated] from rfl]
  intro hc
  simp [saveJson, toJson, sampleLegacyMigrated, sampleLegacy] at hc

/-- C2 (amended): for every store whose records carry no legacy
`"Science Fiction"` tag — which includes every store built through the
app's own operations — `save` followed by `load` succeeds and reproduces
the saved record sequence exactly, field for field, with the cover image
under the model's fixed byte-array encoding. -/
theorem save_load_round_trip (cur : JVal) (lib : List Book)
    (h : ∀ b ∈ lib, "Science Fiction" ∉ b.genres) :
    loadLibrary cur (some (some (saveJson lib))) = (saveJson lib, true) := by
  have hall := migrateAll_toJson lib h
  simp [loadLibrary, saveJson, loadMigrate,
    migrateInPlace_of_all (lib.map toJson) (lib.map toJson) hall]

/-- C2 witness: a two-record store with canonical tags survives the
save/load round trip unchanged. -/
theorem save_load_round_trip_witness :
    (∀ b ∈ ([sampleFiction, sampleSciFi] : List Book),
      "Science Fiction" ∉ b.genres) ∧
    loadLibrary JVal.jnull (some (some (saveJson [sampleFiction, sampleSciFi])))
      = (saveJson [sampleFiction, sampleSciFi], true) :=
  ⟨by decide,
    save_load_round_trip JVal.jnull [sampleFiction, sampleSciFi] (by decide)⟩

end PLM
